import Mathlib

/-!
# Verification of the AI Insight Synthesizer core (`src/app.py`)

A shallow embedding of the core logic of the single-file Streamlit app:
payload building from an uploaded table, prompt composition, the
parse/repair/validate pipeline for the model response, citation lookup
and markdown export.  External collaborators (the `json` module's
decoder, the hosted model client, pandas) are modelled explicitly:
`json.loads` is an abstract decoder parameter producing `Json` values,
the model client is a script of the (at most two) raw text responses,
and the dataframe is a rectangular table of cells with pandas
label-based column access and `.loc` row lookup.
-/

namespace AIInsight

/-- JSON values as produced by `json.loads` (numbers restricted to
integers, which is all the schema and the claims use). -/
inductive Json where
  | null : Json
  | bool (b : Bool) : Json
  | int (n : Int) : Json
  | str (s : String) : Json
  | arr (xs : List Json) : Json
  | obj (kvs : List (String × Json)) : Json
deriving Repr

/-- A hexadecimal digit character, lowercase as Python emits. -/
def hexDigit (n : Nat) : Char :=
  if n < 10 then Char.ofNat (48 + n) else Char.ofNat (87 + n)

/-- Four-digit hexadecimal rendering used in JSON escapes. -/
def hex4 (n : Nat) : String :=
  ⟨[hexDigit (n / 4096 % 16), hexDigit (n / 256 % 16),
    hexDigit (n / 16 % 16), hexDigit (n % 16)]⟩

/-- `json.dumps` escaping of one character (`ensure_ascii=True`
default: non-ASCII code points become `\uXXXX`, astral code points a
surrogate pair). -/
def escChar (c : Char) : String :=
  if c = '"' then "\\\""
  else if c = '\\' then "\\\\"
  else if c = '\n' then "\\n"
  else if c = '\t' then "\\t"
  else if c = '\r' then "\\r"
  else if c.toNat = 8 then "\\b"
  else if c.toNat = 12 then "\\f"
  else if c.toNat < 32 then "\\u" ++ hex4 c.toNat
  else if c.toNat ≤ 126 then String.singleton c
  else if c.toNat ≤ 65535 then "\\u" ++ hex4 c.toNat
  else
    "\\u" ++ hex4 (55296 + (c.toNat - 65536) / 1024) ++
    "\\u" ++ hex4 (56320 + (c.toNat - 65536) % 1024)

/-- The `json.dumps` rendering of a JSON string literal. -/
def dumpStr (s : String) : String :=
  "\"" ++ String.join (s.data.map escChar) ++ "\""

mutual

/-- String serialization of `json.dumps` with its default separators
`", "` and `": "`, as the app calls it on the user payload. -/
def Json.dumps : Json → String
  | .null => "null"
  | .bool b => if b then "true" else "false"
  | .int n => toString n
  | .str s => dumpStr s
  | .arr xs => "[" ++ String.intercalate ", " (dumpsList xs) ++ "]"
  | .obj kvs => "\x7b" ++ String.intercalate ", " (dumpsObj kvs) ++ "\x7d"

/-- Serializations of the elements of a JSON array. -/
def dumpsList : List Json → List String
  | [] => []
  | x :: xs => Json.dumps x :: dumpsList xs

/-- Serializations of the key-value pairs of a JSON object. -/
def dumpsObj : List (String × Json) → List String
  | [] => []
  | kv :: kvs => (dumpStr kv.1 ++ ": " ++ Json.dumps kv.2) :: dumpsObj kvs

end

/-- A cell of the uploaded table.  `pyStr` below captures Python's
`str()` coercion on it, the only operation the app applies to a cell. -/
inductive Cell where
  | str (s : String)
  | int (n : Int)
  | null
deriving Repr, DecidableEq

/-- Python `str()` on a cell value (`str(r[text_col])` in the source;
a missing value read by pandas prints as `nan`). -/
def Cell.pyStr : Cell → String
  | .str s => s
  | .int n => toString n
  | .null => "nan"

/-- Python `int()` on a cell value (`int(r["__row_id"])` in the source;
only ever applied to integer cells). -/
def Cell.pyInt : Cell → Int
  | .str _ => 0
  | .int n => n
  | .null => 0

/-- The uploaded table as read by `pd.read_csv`: named columns and a
rectangular list of rows, with the default positional `RangeIndex`
`0, 1, ...` as row labels. -/
structure DataFrame where
  columns : List String
  rows : List (List Cell)
deriving Repr, DecidableEq

/-- Rectangularity: every row has one cell per column.  `pd.read_csv`
always produces such a table. -/
def DataFrame.WF (df : DataFrame) : Prop :=
  ∀ row ∈ df.rows, row.length = df.columns.length

/-- Label-based cell access `r[col]` on one row of `df`. -/
def cellAt (df : DataFrame) (row : List Cell) (col : String) : Cell :=
  row.getD (df.columns.indexOf col) Cell.null

/-- `df.head(n)`: the first `n` rows (all rows when fewer). -/
def DataFrame.head (df : DataFrame) (n : Nat) : DataFrame :=
  ⟨df.columns, df.rows.take n⟩

/-- Pandas column assignment `df[name] = vals`: overwrite the column in
place when the label already exists, otherwise append it. -/
def DataFrame.setColumn (df : DataFrame) (name : String) (vals : List Cell) : DataFrame :=
  if name ∈ df.columns then
    ⟨df.columns,
     (df.rows.zip vals).map fun rv => rv.1.set (df.columns.indexOf name) rv.2⟩
  else
    ⟨df.columns ++ [name], (df.rows.zip vals).map fun rv => rv.1 ++ [rv.2]⟩

/-- `sample = df.head(max_rows).copy(); sample["__row_id"] =
sample.index.astype(int)` — the working copy of the head of the table,
with the positional index materialised as a `__row_id` column.  The
`.copy()` means this is a fresh table: the mutation by `setColumn`
never touches `df` itself. -/
def sampleOf (df : DataFrame) (maxRows : Nat) : DataFrame :=
  let h := df.head maxRows
  h.setColumn "__row_id" ((List.range h.rows.length).map fun (n : Nat) => Cell.int (n : Int))

/-- Python string slicing `s[:n]`: the first `n` code points. -/
def pySlice (s : String) (n : Nat) : String :=
  ⟨s.data.take n⟩

/-- One record of the prompt payload (`FeedbackRow` of the spec). -/
structure FeedbackRow where
  row_id : Int
  text : String
deriving Repr, DecidableEq, Inhabited

/-- The payload-builder loop: for each row of the sample, a record with
`row_id = int(r["__row_id"])` and `text = str(r[text_col])[:2000]`. -/
def buildRecords (df : DataFrame) (col : String) (maxRows : Nat) : List FeedbackRow :=
  (sampleOf df maxRows).rows.map fun row =>
    { row_id := (cellAt (sampleOf df maxRows) row "__row_id").pyInt
      text := pySlice (cellAt (sampleOf df maxRows) row col).pyStr 2000 }

/-- The payload-building step viewed as acting on the program state
holding the uploaded table: it returns the records together with the
final value of the `df` variable, which the source never reassigns or
mutates (all mutation goes to the `.copy()`). -/
def runPayload (df : DataFrame) (col : String) (maxRows : Nat) :
    List FeedbackRow × DataFrame :=
  (buildRecords df col maxRows, df)

/-- JSON encoding of one payload record. -/
def FeedbackRow.toJson (r : FeedbackRow) : Json :=
  .obj [("row_id", .int r.row_id), ("text", .str r.text)]

/-- The fixed system persona instruction of the first call. -/
def systemPrompt : String :=
  "You are a product leader. Your job is to synthesize customer feedback into actionable product insights. Be specific and avoid generic advice. Every theme must include citations to row_id values."

/-- The `user` dict of the first call: task description plus payload. -/
def userPayload (records : List FeedbackRow) : Json :=
  .obj [("task", .str "Cluster the feedback into 3-7 themes. For each theme: name, summary, frequency, severity, recommended_action, cited_row_ids."),
        ("feedback", .arr (records.map FeedbackRow.toJson))]

/-- The second user message: the verbatim output-schema contract. -/
def schemaPrompt : String :=
  "Return ONLY valid JSON. No markdown, no commentary. Schema: \x7b\"themes\": [\x7b\"theme\": \"\", \"summary\": \"\", \"frequency\": \"Low|Medium|High\", \"severity\": \"Low|Medium|High\", \"recommended_action\": \"\", \"cited_row_ids\": [0]\x7d]\x7d. cited_row_ids must be real row_id integers from the input."

/-- One role-tagged message of an outbound request. -/
structure Message where
  role : String
  content : String
deriving Repr, DecidableEq

/-- One request to the hosted completion endpoint
(`client.responses.create(model=..., input=...)`). -/
structure Request where
  model : String
  input : List Message
deriving Repr, DecidableEq

/-- The first model call: system persona, user task+data (JSON-encoded),
user schema constraint. -/
def firstRequest (records : List FeedbackRow) : Request :=
  { model := "gpt-4o-mini"
    input := [⟨"system", systemPrompt⟩,
              ⟨"user", (userPayload records).dumps⟩,
              ⟨"user", schemaPrompt⟩] }

/-- The repair call: system "Fix JSON.", user carrying the prior raw
text. -/
def repairRequest (raw : String) : Request :=
  { model := "gpt-4o-mini"
    input := [⟨"system", "Fix JSON."⟩,
              ⟨"user", "Repair this into valid JSON only:\n" ++ raw⟩] }

/-- A theme as bound by the pydantic model `Theme`. -/
structure Theme where
  theme : String
  summary : String
  frequency : String
  severity : String
  recommended_action : String
  cited_row_ids : List Int
deriving Repr, DecidableEq

/-- The pydantic model `AnalysisResult`. -/
structure AnalysisResult where
  themes : List Theme
deriving Repr, DecidableEq

/-- How schema binding fails: `AnalysisResult(**out)` raises
`TypeError` when `out` is not a mapping at all, and pydantic's
`ValidationError` on any structural mismatch. -/
inductive BindError where
  | typeError
  | validationError
deriving Repr, DecidableEq

/-- Dict lookup on a decoded JSON object (later duplicate keys win, as
in a Python dict built by `json.loads`). -/
def lookupKey (kvs : List (String × Json)) (k : String) : Option Json :=
  (kvs.reverse.find? fun kv => kv.1 = k).map Prod.snd

/-- Pydantic binding of a `str` field: only a JSON string is accepted
(pydantic performs no number-to-string coercion). -/
def Json.asStr : Json → Option String
  | .str s => some s
  | _ => none

/-- Pydantic binding of an `int` item: a JSON integer, or a numeric
string which pydantic coerces. -/
def Json.asIntItem : Json → Option Int
  | .int n => some n
  | .str s => s.toInt?
  | _ => none

/-- Element-wise pydantic binding of the items of a `List[int]` field:
items are validated left to right and the first failure fails the
whole field. -/
def bindIntItems : List Json → Option (List Int)
  | [] => some []
  | x :: xs =>
    (Json.asIntItem x).bind fun n => (bindIntItems xs).map fun ns => n :: ns

/-- Pydantic binding of `List[int]`. -/
def Json.asIntList : Json → Option (List Int)
  | .arr xs => bindIntItems xs
  | _ => none

/-- Pydantic validation of one theme object: all six fields required,
`theme`/`summary`/`frequency`/`severity`/`recommended_action` strings
(any string — the Low/Medium/High wording lives only in field
descriptions, which pydantic does not enforce), `cited_row_ids` a list
of integers. -/
def Theme.fromJson (j : Json) : Option Theme :=
  match j with
  | .obj kvs =>
    ((lookupKey kvs "theme").bind Json.asStr).bind fun theme =>
    ((lookupKey kvs "summary").bind Json.asStr).bind fun summary =>
    ((lookupKey kvs "frequency").bind Json.asStr).bind fun frequency =>
    ((lookupKey kvs "severity").bind Json.asStr).bind fun severity =>
    ((lookupKey kvs "recommended_action").bind Json.asStr).bind fun act =>
    ((lookupKey kvs "cited_row_ids").bind Json.asIntList).bind fun ids =>
    some ⟨theme, summary, frequency, severity, act, ids⟩
  | _ => none

/-- Element-wise pydantic binding of the `themes` list: themes are
validated left to right and the first failure fails the binding. -/
def bindThemes : List Json → Option (List Theme)
  | [] => some []
  | x :: xs =>
    (Theme.fromJson x).bind fun t => (bindThemes xs).map fun ts => t :: ts

/-- `AnalysisResult(**out)`: `out` must be a dict (else `TypeError`
from the `**` unpacking); the `themes` key must be present and bind as
a list of valid themes (else pydantic `ValidationError`); extra keys
are ignored. -/
def AnalysisResult.validate (j : Json) : Except BindError AnalysisResult :=
  match j with
  | .obj kvs =>
    match lookupKey kvs "themes" with
    | some (.arr xs) =>
      match bindThemes xs with
      | some ts => .ok ⟨ts⟩
      | none => .error .validationError
    | some _ => .error .validationError
    | none => .error .validationError
  | _ => .error .typeError

/-- The scripted behaviour of the external model client: the raw
`output_text` of the first call and of the (possible) repair call. -/
structure ClientScript where
  firstText : String
  repairText : String

/-- Terminal outcome of one analysis run. -/
inductive RunResult where
  | success (result : AnalysisResult) (markdown : String)
  | parseError
  | bindFailure (e : BindError)
deriving Repr, DecidableEq

/-- Comma-joined citation list, `", ".join(map(str, t.cited_row_ids))`. -/
def joinIds (ids : List Int) : String :=
  String.intercalate ", " (ids.map toString)

/-- The six markdown lines the export loop appends for one theme. -/
def themeLines (t : Theme) : List String :=
  ["## " ++ t.theme,
   "- Summary: " ++ t.summary,
   "- Frequency: " ++ t.frequency,
   "- Severity: " ++ t.severity,
   "- Recommended action: " ++ t.recommended_action,
   "- Cited rows: " ++ joinIds t.cited_row_ids ++ "\n"]

/-- The `md_lines` accumulation loop of the source: header line first,
then the per-theme lines appended in order. -/
def mdLines (ts : List Theme) : List String :=
  ts.foldl (fun acc t => acc ++ themeLines t) ["# AI Insight Synthesizer Output\n"]

/-- `md = "\n".join(md_lines)`. -/
def renderMarkdown (r : AnalysisResult) : String :=
  String.intercalate "\n" (mdLines r.themes)

/-- How a citation lookup can fail: pandas raises `KeyError` (a
`LookupError`) when a requested label is missing from the index. -/
inductive LookupErr where
  | keyError
deriving Repr, DecidableEq

/-- `df.loc[ids, [col]]`: label-based lookup of the cited rows against
the FULL uploaded table, whose index is the positional range
`0 .. len-1`; any label outside that range raises `KeyError`. -/
def DataFrame.loc (df : DataFrame) (ids : List Int) : Except LookupErr (List (List Cell)) :=
  if ids.all fun i => 0 ≤ i ∧ i < (df.rows.length : Int) then
    .ok (ids.map fun i => df.rows.getD i.toNat [])
  else
    .error .keyError

/-- The rendering loop over the validated themes: each theme's cited
rows are looked up in the full table; the first failing lookup
propagates as an uncaught error terminating the rendering step. -/
def renderThemes (df : DataFrame) : List Theme → Except LookupErr Unit
  | [] => .ok ()
  | t :: rest =>
    match df.loc t.cited_row_ids with
    | .ok _ => renderThemes df rest
    | .error e => .error e

/-- Python `str.strip()` with no argument: remove leading and trailing
whitespace, as `resp.output_text.strip()` does in the source. -/
def pyStrip (s : String) : String :=
  ⟨((s.data.dropWhile Char.isWhitespace).reverse.dropWhile Char.isWhitespace).reverse⟩

/-- The success path once a JSON value has been decoded: schema
binding, then rendering/markdown on success. -/
def schemaBind (out : Json) : RunResult :=
  match AnalysisResult.validate out with
  | .ok r => .success r (renderMarkdown r)
  | .error e => .bindFailure e

/-- The parse / repair-once / bind pipeline of the source
(`json.loads` with one repair call on `JSONDecodeError`, then
`AnalysisResult(**out)`), parameterised by the external decoder
`decode` standing for `json.loads` and the scripted client responses.
Returns the terminal outcome together with the list of outbound
requests actually issued, in order. -/
def analyze (decode : String → Option Json) (script : ClientScript)
    (records : List FeedbackRow) : RunResult × List Request :=
  let raw := (pyStrip script.firstText)
  match decode raw with
  | some out => (schemaBind out, [firstRequest records])
  | none =>
    match decode script.repairText with
    | some out => (schemaBind out, [firstRequest records, repairRequest raw])
    | none => (.parseError, [firstRequest records, repairRequest raw])

/-- The user-visible startup error message of the source. -/
def missingKeyMsg : String :=
  "Missing OPENAI_API_KEY. Create a .env file with OPENAI_API_KEY=... and restart the app."

/-- Startup outcome: `st.error(...)` followed by `st.stop()`, or a
ready client. -/
inductive Startup where
  | halted (msg : String)
  | ready (apiKey : String)
deriving Repr, DecidableEq

/-- `api_key = os.getenv("OPENAI_API_KEY"); if not api_key: error+stop`.
Python truthiness: both an absent variable (`None`) and an empty string
halt. -/
def startup (env : String → Option String) : Startup :=
  match env "OPENAI_API_KEY" with
  | none => .halted missingKeyMsg
  | some k => if k = "" then .halted missingKeyMsg else .ready k

/-- A whole run from process startup: when startup halts, no analysis
ever happens and no request is issued; otherwise the analysis pipeline
runs. -/
def runApp (env : String → Option String) (decode : String → Option Json)
    (script : ClientScript) (records : List FeedbackRow) :
    Startup × Option RunResult × List Request :=
  match startup env with
  | .halted m => (.halted m, none, [])
  | .ready k =>
    let (res, reqs) := analyze decode script records
    (.ready k, some res, reqs)

/-- JSON object in the shape the schema prompt demands for one theme,
with the enum-slot fields left as arbitrary strings. -/
def themeJson (name sum freq sev act : String) (ids : List Int) : Json :=
  .obj [("theme", .str name), ("summary", .str sum), ("frequency", .str freq),
        ("severity", .str sev), ("recommended_action", .str act),
        ("cited_row_ids", .arr (ids.map Json.int))]

/-- The worked example of the spec: one theme named `Checkout
performance` citing rows 0 and 2. -/
def exampleTheme : Theme :=
  { theme := "Checkout performance"
    summary := "Users report slow checkout."
    frequency := "High"
    severity := "Medium"
    recommended_action := "Optimize checkout path."
    cited_row_ids := [0, 2] }

/-- The example analysis result: exactly the one example theme. -/
def exampleResult : AnalysisResult := ⟨[exampleTheme]⟩

/-- A ten-row single-column table (full table larger than the analyzed
subset when `max_rows = 5`). -/
def dfTen : DataFrame :=
  ⟨["text"], (List.range 10).map fun i => [Cell.str ("row" ++ toString i)]⟩

/-- A theme citing row 7: inside the full ten-row table, outside the
five-row analyzed subset. -/
def themeCiting7 : Theme :=
  { exampleTheme with cited_row_ids := [7] }

/-- A theme citing row 20: outside the full ten-row table. -/
def themeCiting20 : Theme :=
  { exampleTheme with cited_row_ids := [20] }

/-- A table whose only column is named `__row_id`, colliding with the
auxiliary column the payload builder assigns. -/
def dfShadow : DataFrame := ⟨["__row_id"], [[Cell.str "hello"]]⟩

/-- A small ordinary table. -/
def dfEx : DataFrame := ⟨["text"], [[Cell.str "a"], [Cell.str "b"]]⟩

/-- A scripted decoder: decodes only the marker text `FIXED` (to an
empty JSON object), failing on everything else. -/
def decodeW : String → Option Json :=
  fun s => if s = "FIXED" then some (Json.obj []) else none

/-- A client script whose first response is undecodable and whose
repair response is the decodable marker. -/
def scriptW : ClientScript := ⟨"bad", "FIXED"⟩

/-- A scripted decoder decoding only the marker `RAW`, to the JSON
object `\x7b"themes": []\x7d`. -/
def decodeOkEmpty : String → Option Json :=
  fun s => if s = "RAW" then some (Json.obj [("themes", Json.arr [])]) else none

/-- A client script whose first response decodes immediately. -/
def scriptOkEmpty : ClientScript := ⟨"RAW", ""⟩

/-- A process environment with no variables set. -/
def envEmpty : String → Option String := fun _ => none

/-! ## Helper lemmas -/

/-- Binding `List[int]` succeeds on a list of JSON integers and
recovers exactly those integers. -/
theorem asIntList_map_int (ids : List Int) :
    Json.asIntList (.arr (ids.map Json.int)) = some ids := by
  induction ids with
  | nil => rfl
  | cons x xs ih =>
    simp only [Json.asIntList, List.map_cons, bindIntItems] at *
    simp [Json.asIntItem, ih]

/-- Binding `List[int]` fails whenever the array contains a JSON
`null`, which no pydantic mode coerces to an integer. -/
theorem asIntList_none_of_null_mem {l : List Json} (h : Json.null ∈ l) :
    Json.asIntList (.arr l) = none := by
  induction l with
  | nil => cases h
  | cons x xs ih =>
    rcases List.mem_cons.mp h with h | h
    · subst h
      simp [Json.asIntList, bindIntItems, Json.asIntItem]
    · simp only [Json.asIntList, bindIntItems] at *
      cases Json.asIntItem x <;> simp [ih h]

/-- Schema binding never yields the parse-failure outcome. -/
theorem schemaBind_ne_parseError (j : Json) : schemaBind j ≠ RunResult.parseError := by
  unfold schemaBind
  cases AnalysisResult.validate j <;> simp

/-! ## C1: one-shot repair policy -/

/-- C1: the response validator performs at most one repair.  When the
initial output decodes, one request is issued and the run proceeds to
schema binding.  When it fails to decode, exactly one additional
request is issued carrying the prior raw text; if that repaired output
decodes, the run proceeds to schema binding (never a parse error), and
if it also fails to decode the run terminates with the fatal parse
error after exactly those two requests. -/
theorem repair_policy_bounded (decode : String → Option Json) (script : ClientScript)
    (records : List FeedbackRow) :
    (analyze decode script records).2.length ≤ 2 ∧
    (∀ j, decode (pyStrip script.firstText) = some j →
      analyze decode script records = (schemaBind j, [firstRequest records])) ∧
    (∀ j, decode (pyStrip script.firstText) = none → decode script.repairText = some j →
      analyze decode script records =
        (schemaBind j, [firstRequest records, repairRequest (pyStrip script.firstText)]) ∧
      schemaBind j ≠ RunResult.parseError) ∧
    (decode (pyStrip script.firstText) = none → decode script.repairText = none →
      analyze decode script records =
        (RunResult.parseError,
         [firstRequest records, repairRequest (pyStrip script.firstText)])) := by
  refine ⟨?_, ?_, ?_, ?_⟩
  · unfold analyze
    dsimp only
    split
    · simp
    · split <;> simp
  · intro j hj
    simp [analyze, hj]
  · intro j h1 h2
    exact ⟨by simp [analyze, h1, h2], schemaBind_ne_parseError j⟩
  · intro h1 h2
    simp [analyze, h1, h2]

/-- Witness for C1 at a concrete scripted client: the first response
`"bad"` fails to decode, the repaired response decodes, and the run
reaches schema binding with exactly two requests issued. -/
theorem repair_policy_bounded_witness :
    analyze decodeW scriptW [] =
      (schemaBind (Json.obj []), [firstRequest [], repairRequest (pyStrip scriptW.firstText)]) ∧
    schemaBind (Json.obj []) ≠ RunResult.parseError :=
  (repair_policy_bounded decodeW scriptW []).2.2.1 (Json.obj []) (by rfl) (by rfl)

/-- Binding the `themes` list fails whenever any member fails. -/
theorem bindThemes_none_of_mem {xs : List Json} {tj : Json} (hm : tj ∈ xs)
    (hf : Theme.fromJson tj = none) : bindThemes xs = none := by
  induction xs with
  | nil => cases hm
  | cons x rest ih =>
    rcases List.mem_cons.mp hm with h | h
    · subst h
      simp [bindThemes, hf]
    · simp only [bindThemes]
      cases Theme.fromJson x <;> simp [ih h]

/-- A theme object whose `cited_row_ids` array contains a JSON `null`
never validates. -/
theorem fromJson_none_of_bad_ids (kvs : List (String × Json)) (l : List Json)
    (h : lookupKey kvs "cited_row_ids" = some (Json.arr l)) (hn : Json.null ∈ l) :
    Theme.fromJson (Json.obj kvs) = none := by
  have hids : (lookupKey kvs "cited_row_ids").bind Json.asIntList = none := by
    rw [h]
    simpa using asIntList_none_of_null_mem hn
  simp only [Theme.fromJson]
  cases (lookupKey kvs "theme").bind Json.asStr <;>
    cases (lookupKey kvs "summary").bind Json.asStr <;>
    cases (lookupKey kvs "frequency").bind Json.asStr <;>
    cases (lookupKey kvs "severity").bind Json.asStr <;>
    cases (lookupKey kvs "recommended_action").bind Json.asStr <;>
    simp [hids]

/-! ## C3: schema binding failures are fatal and trigger no repair -/

/-- C3: decoded JSON that does not match the `AnalysisResult`/`Theme`
shape fails schema binding with a `ValidationError` — a missing
required field fails, and a wrong-typed field such as a non-integer
element in `cited_row_ids` fails — the failure class issues no repair
request (exactly the one request stands), and it is fatal: the outcome
is a bind failure, never the success path. -/
theorem schema_binding_fatal_no_repair :
    (∀ kvs, lookupKey kvs "themes" = none →
      AnalysisResult.validate (Json.obj kvs) = Except.error BindError.validationError) ∧
    (∀ kvs l, lookupKey kvs "cited_row_ids" = some (Json.arr l) → Json.null ∈ l →
      Theme.fromJson (Json.obj kvs) = none) ∧
    (∀ kvs xs tj, lookupKey kvs "themes" = some (Json.arr xs) → tj ∈ xs →
      Theme.fromJson tj = none →
      AnalysisResult.validate (Json.obj kvs) = Except.error BindError.validationError) ∧
    (∀ (decode : String → Option Json) (script : ClientScript)
       (records : List FeedbackRow) (j : Json) (e : BindError),
      decode (pyStrip script.firstText) = some j →
      AnalysisResult.validate j = Except.error e →
      analyze decode script records = (RunResult.bindFailure e, [firstRequest records])) ∧
    (∀ (e : BindError) (r : AnalysisResult) (md : String),
      RunResult.bindFailure e ≠ RunResult.success r md) := by
  refine ⟨?_, ?_, ?_, ?_, ?_⟩
  · intro kvs h
    simp [AnalysisResult.validate, h]
  · intro kvs l h hn
    exact fromJson_none_of_bad_ids kvs l h hn
  · intro kvs xs tj h hm hf
    simp [AnalysisResult.validate, h, bindThemes_none_of_mem hm hf]
  · intro decode script records j e h1 h2
    simp [analyze, h1, schemaBind, h2]
  · intro e r md
    simp

/-- Witness for C3: the empty object is missing `themes` and is
rejected; a theme whose `cited_row_ids` is `[null]` is rejected. -/
theorem schema_binding_fatal_no_repair_witness :
    AnalysisResult.validate (Json.obj []) = Except.error BindError.validationError ∧
    Theme.fromJson (Json.obj [("cited_row_ids", Json.arr [Json.null])]) = none :=
  ⟨schema_binding_fatal_no_repair.1 [] rfl,
   schema_binding_fatal_no_repair.2.1 [("cited_row_ids", Json.arr [Json.null])]
     [Json.null] rfl (by simp)⟩

/-! ## C5: the enum fields are accepted as free-form strings -/

/-- C5: schema binding accepts any string whatsoever for `frequency`
and `severity` (the tri-valued Low/Medium/High wording is not
enforced): a theme object carrying arbitrary strings in those fields
validates, and so does a whole analysis result containing it. -/
theorem enum_fields_accept_any_string (name sum freq sev act : String) (ids : List Int) :
    Theme.fromJson (themeJson name sum freq sev act ids) =
      some ⟨name, sum, freq, sev, act, ids⟩ ∧
    AnalysisResult.validate
        (Json.obj [("themes", Json.arr [themeJson name sum freq sev act ids])]) =
      Except.ok ⟨[⟨name, sum, freq, sev, act, ids⟩]⟩ := by
  have h1 : Theme.fromJson (themeJson name sum freq sev act ids) =
      some ⟨name, sum, freq, sev, act, ids⟩ := by
    show (Json.asIntList (Json.arr (ids.map Json.int))).bind
        (fun ids' => some (⟨name, sum, freq, sev, act, ids'⟩ : Theme)) =
      some ⟨name, sum, freq, sev, act, ids⟩
    rw [asIntList_map_int]
    rfl
  refine ⟨h1, ?_⟩
  show (match bindThemes [themeJson name sum freq sev act ids] with
        | some ts => Except.ok (⟨ts⟩ : AnalysisResult)
        | none => Except.error BindError.validationError) = _
  simp [bindThemes, h1]

/-! ## C7: the outbound protocol shape is fixed -/

/-- C7: the first model call sends exactly three role-tagged messages —
a system persona instruction, a user message with the JSON-encoded
task plus row payload, and a user message declaring the required
output schema — the repair call sends exactly two — a system "fix
JSON" instruction and a user message carrying the prior raw text — and
every run issues either just the first request or the first request
followed by the repair request. -/
theorem outbound_protocol_shape (records : List FeedbackRow) (raw : String)
    (decode : String → Option Json) (script : ClientScript) :
    (firstRequest records).input.length = 3 ∧
    (firstRequest records).model = "gpt-4o-mini" ∧
    (firstRequest records).input.map Message.role = ["system", "user", "user"] ∧
    (firstRequest records).input =
      [⟨"system", systemPrompt⟩, ⟨"user", (userPayload records).dumps⟩,
       ⟨"user", schemaPrompt⟩] ∧
    (repairRequest raw).input.length = 2 ∧
    (repairRequest raw).model = "gpt-4o-mini" ∧
    (repairRequest raw).input.map Message.role = ["system", "user"] ∧
    (repairRequest raw).input =
      [⟨"system", "Fix JSON."⟩, ⟨"user", "Repair this into valid JSON only:\n" ++ raw⟩] ∧
    ((analyze decode script records).2 = [firstRequest records] ∨
     (analyze decode script records).2 =
       [firstRequest records, repairRequest (pyStrip script.firstText)]) := by
  refine ⟨rfl, rfl, rfl, rfl, rfl, rfl, rfl, rfl, ?_⟩
  unfold analyze
  dsimp only
  split
  · exact Or.inl rfl
  · split <;> exact Or.inr rfl

/-! ## C8: a missing credential halts before any interaction -/

/-- C8: when the API credential is absent from the process environment
at startup, the app halts fatally with the user-visible remediation
message, produces no analysis outcome, and issues no model request at
all. -/
theorem missing_api_key_halts (env : String → Option String)
    (decode : String → Option Json) (script : ClientScript)
    (records : List FeedbackRow) (h : env "OPENAI_API_KEY" = none) :
    runApp env decode script records = (Startup.halted missingKeyMsg, none, []) := by
  simp [runApp, startup, h]

/-- Witness for C8 at the empty environment. -/
theorem missing_api_key_halts_witness :
    runApp envEmpty decodeW scriptW [] = (Startup.halted missingKeyMsg, none, []) :=
  missing_api_key_halts envEmpty decodeW scriptW [] rfl

/-! ## C9: an empty themes list binds and completes -/

/-- C9: the decoded input `\x7b"themes": []\x7d` passes schema binding
with an empty themes list, and the pipeline completes successfully
with a markdown export consisting of only the top-level report header
and zero theme sections. -/
theorem empty_themes_success (records : List FeedbackRow) :
    AnalysisResult.validate (Json.obj [("themes", Json.arr [])]) = Except.ok ⟨[]⟩ ∧
    renderMarkdown ⟨[]⟩ = "# AI Insight Synthesizer Output\n" ∧
    analyze decodeOkEmpty scriptOkEmpty records =
      (RunResult.success ⟨[]⟩ "# AI Insight Synthesizer Output\n",
       [firstRequest records]) :=
  ⟨rfl, rfl, rfl⟩

/-! ## C10: the analysis never modifies the uploaded table -/

/-- C10: payload building operates on a copy of the head of the
dataframe — after the step the original table is unchanged, and the
auxiliary `__row_id` column exists on the working copy but never on
the original. -/
theorem analysis_preserves_dataframe (df : DataFrame) (col : String) (maxRows : Nat)
    (h : "__row_id" ∉ df.columns) :
    (runPayload df col maxRows).2 = df ∧
    (sampleOf df maxRows).columns = df.columns ++ ["__row_id"] ∧
    "__row_id" ∈ (sampleOf df maxRows).columns ∧
    "__row_id" ∉ (runPayload df col maxRows).2.columns := by
  refine ⟨rfl, ?_, ?_, h⟩
  · simp [sampleOf, DataFrame.head, DataFrame.setColumn, h]
  · simp [sampleOf, DataFrame.head, DataFrame.setColumn, h]

/-- Witness for C10 at a concrete two-row table. -/
theorem analysis_preserves_dataframe_witness :
    (runPayload dfEx "text" 5).2 = dfEx ∧
    (sampleOf dfEx 5).columns = dfEx.columns ++ ["__row_id"] ∧
    "__row_id" ∈ (sampleOf dfEx 5).columns ∧
    "__row_id" ∉ (runPayload dfEx "text" 5).2.columns :=
  analysis_preserves_dataframe dfEx "text" 5 (by decide)

/-- The markdown line accumulation is the header followed by the
per-theme sections in table order. -/
theorem mdLines_eq (ts : List Theme) :
    mdLines ts = "# AI Insight Synthesizer Output\n" :: (ts.map themeLines).flatten := by
  suffices h : ∀ init : List String,
      ts.foldl (fun acc t => acc ++ themeLines t) init = init ++ (ts.map themeLines).flatten by
    simpa [mdLines] using h ["# AI Insight Synthesizer Output\n"]
  induction ts with
  | nil => simp
  | cons t rest ih =>
    intro init
    simp [List.foldl_cons, ih, List.append_assoc]

/-! ## C6: fixed section-per-theme markdown structure -/

set_option maxRecDepth 16384 in
/-- C6: the exported markdown is the report header followed, for each
theme in order, by a `## <theme>` heading and the Summary, Frequency,
Severity, Recommended action and comma-joined Cited rows bullet lines;
in the example scenario the export contains a `## Checkout
performance` section with `Cited rows: 0, 2`. -/
theorem markdown_report_structure (r : AnalysisResult) (t : Theme) :
    renderMarkdown r =
      String.intercalate "\n"
        ("# AI Insight Synthesizer Output\n" :: (r.themes.map themeLines).flatten) ∧
    themeLines t =
      ["## " ++ t.theme,
       "- Summary: " ++ t.summary,
       "- Frequency: " ++ t.frequency,
       "- Severity: " ++ t.severity,
       "- Recommended action: " ++ t.recommended_action,
       "- Cited rows: " ++ String.intercalate ", " (t.cited_row_ids.map toString) ++ "\n"] ∧
    (∃ a b, renderMarkdown exampleResult = a ++ "## Checkout performance" ++ b) ∧
    (∃ c d, renderMarkdown exampleResult = c ++ "Cited rows: 0, 2" ++ d) := by
  refine ⟨by rw [renderMarkdown, mdLines_eq], rfl, ?_, ?_⟩
  · exact ⟨"# AI Insight Synthesizer Output\n\n",
      "\n- Summary: Users report slow checkout.\n- Frequency: High\n- Severity: Medium\n- Recommended action: Optimize checkout path.\n- Cited rows: 0, 2\n",
      by decide⟩
  · exact ⟨"# AI Insight Synthesizer Output\n\n## Checkout performance\n- Summary: Users report slow checkout.\n- Frequency: High\n- Severity: Medium\n- Recommended action: Optimize checkout path.\n- ",
      "\n",
      by decide⟩

/-! ## C4: out-of-range citation lookups -/

/-- Counterexample to C4 as stated: row id 7 is outside the analyzed
subset (rows 0–4 when `max_rows = 5`), yet the citation lookup — which
runs against the FULL uploaded table — succeeds without raising any
error, and the rendering step completes. -/
theorem citation_out_of_sample_cex :
    (buildRecords dfTen "text" 5).map FeedbackRow.row_id = [0, 1, 2, 3, 4] ∧
    (7 : Int) ∉ (buildRecords dfTen "text" 5).map FeedbackRow.row_id ∧
    themeCiting7.cited_row_ids = [7] ∧
    dfTen.loc themeCiting7.cited_row_ids = Except.ok [[Cell.str "row7"]] ∧
    renderThemes dfTen [themeCiting7] = Except.ok () :=
  ⟨rfl, by decide, rfl, rfl, rfl⟩

/-- C4 (amended): only a cited row id outside the FULL uploaded
table's row range makes the citation lookup raise its `KeyError`,
which propagates as an uncaught fatal error terminating the rendering
step. -/
theorem citation_out_of_table_fatal (df : DataFrame) (ts : List Theme) (t : Theme)
    (i : Int) (ht : t ∈ ts) (hi : i ∈ t.cited_row_ids)
    (hout : i < 0 ∨ (df.rows.length : Int) ≤ i) :
    df.loc t.cited_row_ids = Except.error LookupErr.keyError ∧
    renderThemes df ts = Except.error LookupErr.keyError := by
  have hloc : df.loc t.cited_row_ids = Except.error LookupErr.keyError := by
    have hall : ¬ ∀ j ∈ t.cited_row_ids, 0 ≤ j ∧ j < (df.rows.length : Int) := by
      intro hall
      rcases hall i hi with ⟨h1, h2⟩
      omega
    simp only [DataFrame.loc]
    rw [if_neg]
    simpa using hall
  refine ⟨hloc, ?_⟩
  induction ts with
  | nil => cases ht
  | cons t' rest ih =>
    rcases List.mem_cons.mp ht with h | h
    · subst h
      simp [renderThemes, hloc]
    · simp only [renderThemes]
      cases hl : df.loc t'.cited_row_ids with
      | error e => cases e; rfl
      | ok v => exact ih h

/-- Witness for the amended C4: citing row 20 in the ten-row table is
a fatal lookup error. -/
theorem citation_out_of_table_fatal_witness :
    dfTen.loc themeCiting20.cited_row_ids = Except.error LookupErr.keyError ∧
    renderThemes dfTen [themeCiting20] = Except.error LookupErr.keyError :=
  citation_out_of_table_fatal dfTen [themeCiting20] themeCiting20 20 (by simp)
    (by decide) (by decide)

/-! ## C2: the payload builder -/

/-- Counterexample to C2 as stated: on a table whose selected column
is literally named `__row_id`, the builder's auxiliary column
assignment overwrites the selected column before the text is read, so
the produced `text` is the stringified row index `"0"`, not the cell
value `"hello"` that the claim requires. -/
theorem payload_builder_shadow_cex :
    "__row_id" ∈ dfShadow.columns ∧
    (5 : Nat) ≤ 5 ∧ (5 : Nat) ≤ 50 ∧
    buildRecords dfShadow "__row_id" 5 = [⟨0, "0"⟩] ∧
    pySlice ((dfShadow.rows.getD 0 []).getD (dfShadow.columns.indexOf "__row_id")
      Cell.null).pyStr 2000 = "hello" ∧
    ("0" : String) ≠ "hello" :=
  ⟨by decide, by decide, by decide, rfl, rfl, by decide⟩

/-- C2 (amended): for every rectangular uploaded table, every selected
column other than the reserved name `__row_id`, and every `max_rows`,
the payload builder produces exactly `min max_rows row_count` records
in table order, the `i`-th having `row_id` equal to the row's
positional index and `text` equal to the cell value coerced to a
string and truncated to at most 2000 characters. -/
theorem payload_builder_matches_table (df : DataFrame) (col : String) (maxRows : Nat)
    (hwf : df.WF) (hcol : col ∈ df.columns) (hne : col ≠ "__row_id")
    (h5 : 5 ≤ maxRows) (h50 : maxRows ≤ 50) :
    (buildRecords df col maxRows).length = min maxRows df.rows.length ∧
    ∀ i : Nat, i < min maxRows df.rows.length →
      (buildRecords df col maxRows).getD i default =
        { row_id := (i : Int)
          text := pySlice ((df.rows.getD i []).getD (df.columns.indexOf col)
            Cell.null).pyStr 2000 } ∧
      ((buildRecords df col maxRows).getD i default).text.length ≤ 2000 := by
  have hslen : (sampleOf df maxRows).rows.length = (df.rows.take maxRows).length := by
    by_cases hmem : "__row_id" ∈ df.columns <;>
      simp [sampleOf, DataFrame.head, DataFrame.setColumn, hmem]
  have hlen : (buildRecords df col maxRows).length = min maxRows df.rows.length := by
    simp [buildRecords, hslen]
  refine ⟨hlen, ?_⟩
  intro i hi
  have hi1 : i < df.rows.length := lt_of_lt_of_le hi (Nat.min_le_right _ _)
  have hil : i < (buildRecords df col maxRows).length := by rw [hlen]; exact hi
  have hrl : (df.rows[i]).length = df.columns.length := hwf _ (List.getElem_mem hi1)
  have hidC : df.columns.indexOf col < df.columns.length := List.indexOf_lt_length.mpr hcol
  have hgd : df.rows.getD i [] = df.rows[i] := List.getD_eq_getElem _ _ hi1
  suffices heq : (buildRecords df col maxRows).getD i default =
      { row_id := (i : Int)
        text := pySlice ((df.rows.getD i []).getD (df.columns.indexOf col)
          Cell.null).pyStr 2000 } by
    refine ⟨heq, ?_⟩
    rw [heq]
    exact List.length_take_le _ _
  rw [List.getD_eq_getElem _ _ hil]
  by_cases hmem : "__row_id" ∈ df.columns
  · have hs : sampleOf df maxRows =
        ⟨df.columns,
         ((df.rows.take maxRows).zip
            ((List.range (df.rows.take maxRows).length).map fun (n : Nat) => Cell.int (n : Int))).map
           fun rv => rv.1.set (df.columns.indexOf "__row_id") rv.2⟩ := by
      simp [sampleOf, DataFrame.head, DataFrame.setColumn, hmem]
    have hidR : df.columns.indexOf "__row_id" < df.rows[i].length := by
      rw [hrl]; exact List.indexOf_lt_length.mpr hmem
    simp only [buildRecords, hs, cellAt, List.getElem_map, List.getElem_zip,
      List.getElem_take, List.getElem_range]
    have h1 : (df.rows[i].set (df.columns.indexOf "__row_id") (Cell.int i)).getD
        (df.columns.indexOf "__row_id") Cell.null = Cell.int i := by
      rw [List.getD_eq_getElem _ _ (by simpa using hidR)]
      exact List.getElem_set_self ..
    have hne' : df.columns.indexOf "__row_id" ≠ df.columns.indexOf col := by
      intro h
      exact hne ((List.indexOf_inj hcol hmem).mp h.symm)
    have h2 : (df.rows[i].set (df.columns.indexOf "__row_id") (Cell.int i)).getD
        (df.columns.indexOf col) Cell.null =
        df.rows[i].getD (df.columns.indexOf col) Cell.null := by
      rw [List.getD_eq_getElem _ _ (by simpa using hrl ▸ hidC),
          List.getD_eq_getElem _ _ (hrl ▸ hidC)]
      exact List.getElem_set_of_ne hne' _ _
    rw [h1, h2, hgd]
    rfl
  · have hs : sampleOf df maxRows =
        ⟨df.columns ++ ["__row_id"],
         ((df.rows.take maxRows).zip
            ((List.range (df.rows.take maxRows).length).map fun (n : Nat) => Cell.int (n : Int))).map
           fun rv => rv.1 ++ [rv.2]⟩ := by
      simp [sampleOf, DataFrame.head, DataFrame.setColumn, hmem]
    have hidR : (df.columns ++ ["__row_id"]).indexOf "__row_id" = df.columns.length := by
      rw [List.indexOf_append_of_not_mem hmem]
      simp
    have hidC' : (df.columns ++ ["__row_id"]).indexOf col = df.columns.indexOf col :=
      List.indexOf_append_of_mem hcol
    simp only [buildRecords, hs, cellAt, List.getElem_map, List.getElem_zip,
      List.getElem_take, List.getElem_range, hidR, hidC']
    have h1 : (df.rows[i] ++ [Cell.int i]).getD df.columns.length Cell.null = Cell.int i := by
      rw [List.getD_eq_getElem _ _ (by simp [hrl]),
          List.getElem_append_right (by omega)]
      simp [hrl]
    have h2 : (df.rows[i] ++ [Cell.int i]).getD (df.columns.indexOf col) Cell.null =
        df.rows[i].getD (df.columns.indexOf col) Cell.null := by
      rw [List.getD_eq_getElem _ _ (by simp; omega),
          List.getD_eq_getElem _ _ (hrl ▸ hidC)]
      exact List.getElem_append_left _
    rw [h1, h2, hgd]
    rfl

/-- Witness for the amended C2 at a concrete two-row table: two
records are produced and the first record is row 0's cell text. -/
theorem payload_builder_matches_table_witness :
    (buildRecords dfEx "text" 5).length = min 5 dfEx.rows.length ∧
    (buildRecords dfEx "text" 5).getD 0 default =
      { row_id := (0 : Int)
        text := pySlice ((dfEx.rows.getD 0 []).getD (dfEx.columns.indexOf "text")
          Cell.null).pyStr 2000 } := by
  have h := payload_builder_matches_table dfEx "text" 5
    (by unfold DataFrame.WF; decide) (by decide) (by decide) (by decide) (by decide)
  exact ⟨h.1, (h.2 0 (by decide)).1⟩

end AIInsight
